import Mathlib

/-!
Verification of the Discord-Gemini chatbot's conversation pipeline.

A shallow embedding of the repository's Python source:
- `attachments.py`   : MIME classification and attachment batch download
- `message_handler.py`: respond filter, query construction, response chunking
- `ai_service.py`     : history normalization and response generation
- `commands.py`       : tracked-thread bookkeeping
- `settings.py`       : the configuration constants the above read

Python strings are Lean `String`s (chunking works over `List Char`, matching
Python's per-character slicing); loosely-typed Python values are the `PyVal`
inductive; dictionaries are association lists preserving insertion order;
the network is modelled by recording each fetch's outcome on the reference.
-/

namespace DiscordGeminiBot

/-! ## settings.py -/

/-- Constant `TRACKED_CHANNELS` from `settings.py`: every entry is commented out,
so the shipped list is empty. -/
def TRACKED_CHANNELS : List Nat := []

/-- Constant `MAX_MESSAGE_LENGTH` from `settings.py`. -/
def MAX_MESSAGE_LENGTH : Nat := 1700

/-! ## Python values

`PyVal` embeds the loosely-typed values that flow through the history
conversion code: strings, ints, `None`, lists and (insertion-ordered)
dicts with string keys. -/

inductive PyVal where
  | vstr (s : String)
  | vint (n : Int)
  | vnone
  | vlist (items : List PyVal)
  | vdict (entries : List (String × PyVal))

mutual

/-- Python `repr` for `PyVal` (as used by `str` on containers). -/
def pyRepr : PyVal → String
  | .vstr s => "'" ++ s ++ "'"
  | .vint n => toString n
  | .vnone => "None"
  | .vlist items => "[" ++ String.intercalate ", " (pyReprList items) ++ "]"
  | .vdict entries => "\x7b" ++ String.intercalate ", " (pyReprEntries entries) ++ "\x7d"

/-- Python `repr` of each element of a list. -/
def pyReprList : List PyVal → List String
  | [] => []
  | v :: vs => pyRepr v :: pyReprList vs

/-- Python `repr` of each `key: value` entry of a dict. -/
def pyReprEntries : List (String × PyVal) → List String
  | [] => []
  | (k, v) :: es => ("'" ++ k ++ "': " ++ pyRepr v) :: pyReprEntries es

end

/-- Python `str()`: identity on strings, `repr`-like elsewhere. -/
def pyStr : PyVal → String
  | .vstr s => s
  | v => pyRepr v

/-- First-match lookup in an insertion-ordered dict (`'k' in d` / `d['k']`). -/
def dictGet (entries : List (String × PyVal)) (k : String) : Option PyVal :=
  match entries with
  | [] => none
  | (k', v) :: rest => if k' = k then some v else dictGet rest k

/-! ## attachments.py -/

/-- Table `MIME_TYPE_MAPPING['image']`. -/
def MIME_image : List String := [".png", ".jpeg", ".jpg", ".heic", ".webp", ".heif"]

/-- Table `MIME_TYPE_MAPPING['audio']`. -/
def MIME_audio : List String := [".wav", ".mp3", ".aiff", ".aac", ".ogg", ".flac"]

/-- Table `MIME_TYPE_MAPPING['text']`. -/
def MIME_text : List String := [".html", ".css", ".md", ".csv", ".xml", ".rtf"]

/-- Table `MIME_TYPE_MAPPING['application']`. -/
def MIME_application : List (String × String) :=
  [(".pdf", "application/pdf"), (".js", "application/x-javascript"), (".py", "application/x-python")]

/-- Python `str.lower`, character by character (`Char.toLower` is the
ASCII lowering Python performs on these ASCII extension tables). -/
def pyLower (s : String) : String :=
  String.mk (s.data.map Char.toLower)

/-- Python `str.split(sep)` for a one-character separator, over the
character list; always returns a non-empty list, `['']` on `''`. -/
def splitOnChar (sep : Char) : List Char → List (List Char)
  | [] => [[]]
  | c :: rest =>
    match splitOnChar sep rest with
    | [] => [[]]
    | g :: gs => if c = sep then [] :: g :: gs else (c :: g) :: gs

/-- Python `str.split(sep)` on strings. -/
def pySplit (s : String) (sep : Char) : List String :=
  (splitOnChar sep s.data).map String.mk

/-- The extension the code derives from a filename:
`f".{filename.lower().split('.')[-1]}"`. -/
def extOf (filename : String) : String :=
  "." ++ (pySplit (pyLower filename) '.').getLastD ""

/-- Function `_get_mime_type` from `attachments.py`. -/
def get_mime_type (filename : String) : Option String :=
  let ext := extOf filename
  if ext ∈ MIME_image then some ("image/" ++ ext.drop 1)
  else if ext ∈ MIME_audio then some ("audio/" ++ ext.drop 1)
  else if ext ∈ MIME_text then some ("text/" ++ ext.drop 1)
  else
    match MIME_application.lookup ext with
    | some m => some m
    | none => none

deriving instance DecidableEq for Except

/-- A Discord attachment reference together with the outcome its URL fetch
would have: an exception, or a transport status and the response bytes. -/
structure AttachmentRef where
  filename : String
  fetch : Except Unit (Nat × List Nat)
deriving DecidableEq

/-- One entry of the result of `get_attachment_data`:
`{"mime_type": ..., "data": ...}`. -/
structure AttachmentData where
  mime_type : String
  data : List Nat
deriving DecidableEq

/-- Function `get_attachment_data` from `attachments.py`: per item, fail the whole
batch on a fetch exception or a status other than 200, collect the bytes
when the MIME type is recognised, and skip the item otherwise. -/
def get_attachment_data : List AttachmentRef → Option (List AttachmentData)
  | [] => some []
  | a :: rest =>
    match a.fetch with
    | .error _ => none
    | .ok (status, bytes) =>
      if status ≠ 200 then none
      else
        match get_mime_type a.filename with
        | some m =>
          match get_attachment_data rest with
          | some tail => some (⟨m, bytes⟩ :: tail)
          | none => none
        | none => get_attachment_data rest

/-! ## message_handler.py: response chunking

`split_and_send_messages` builds `text[i:i + max_length]` for
`i in range(0, len(text), max_length)` and sends one reply per chunk.
Text is a `List Char`, matching Python's per-character slicing.
`split_chunks` is the chunk list; the number of replies sent is its
length. The loop is written with explicit fuel (`len(text)` iterations
always suffice for a positive step); Python's `range` raises
`ValueError` on step `0`, and `max_length` is the positive constant
`MAX_MESSAGE_LENGTH` at the only call site, so the `max_length = 0`
case is unreachable and returns `[]` here. -/

/-- The slicing loop of `split_and_send_messages`, from index `i`. -/
def split_chunks_go (fuel : Nat) (text : List Char) (i max_length : Nat) : List (List Char) :=
  match fuel with
  | 0 => []
  | fuel + 1 =>
    if i < text.length then
      ((text.drop i).take max_length) :: split_chunks_go fuel text (i + max_length) max_length
    else []

/-- The chunk list built by `split_and_send_messages`. -/
def split_chunks (text : List Char) (max_length : Nat) : List (List Char) :=
  if max_length = 0 then [] else split_chunks_go text.length text 0 max_length


/-! ## Discord message model

The fields of `discord.Message` (and of the replied-to message resolved by
`channel.fetch_message`) that `message_handler.py` reads. `guild.me` is the
bot's member object; only its id takes part in comparisons. `mentioned_in`
and `DMChannel` membership are recorded as fields of the inbound event. -/

structure Author where
  name : String
  id : Nat
deriving DecidableEq

structure Guild where
  me_id : Nat
deriving DecidableEq

/-- The replied-to message, as resolved by `channel.fetch_message`. -/
structure RefMessage where
  author : Author
  clean_content : String
  attachments : List AttachmentRef
deriving DecidableEq

structure Message where
  author : Author
  content : String
  clean_content : String
  attachments : List AttachmentRef
  reference : Option RefMessage
  guild : Option Guild
  mention_everyone : Bool
  channel_id : Nat
  is_dm : Bool
  /-- Whether `guild.me.mentioned_in(message)`; read only when a guild is present. -/
  bot_mentioned : Bool

/-! ## message_handler.py: construct_query -/

/-- Function `construct_query` from `message_handler.py`. Returns the query string
and the attachment list after the possible `extend` with the quoted
message's attachments (the Python code mutates the list in place). -/
def construct_query (message : Message) (attachments : Option (List AttachmentData)) :
    String × Option (List AttachmentData) :=
  let author_name := message.author.name
  let query :=
    if message.attachments.isEmpty then
      "@" ++ author_name ++ " said \"" ++ message.clean_content ++ "\""
    else if message.content.isEmpty then
      "@" ++ author_name ++ " sent attachments:"
    else
      "@" ++ author_name ++ " said \"" ++ message.clean_content ++ "\" while sending attachments:"
  match message.reference with
  | none => (query, attachments)
  | some reply_message =>
    -- `reply_message.author.id != message.guild.me.id if message.guild else False`
    let not_bot_reply : Bool :=
      match message.guild with
      | some g => reply_message.author.id != g.me_id
      | none => false
    if not_bot_reply then
      let query := query ++ " while quoting @" ++ reply_message.author.name
        ++ " \"" ++ reply_message.clean_content ++ "\""
      -- `if reply_message.attachments and attachments is not None:`
      match attachments with
      | some atts =>
        if reply_message.attachments.isEmpty then (query, some atts)
        else
          match get_attachment_data reply_message.attachments with
          | some reply_atts =>
            -- `if reply_attachments: attachments.extend(reply_attachments)`
            if reply_atts.isEmpty then (query, some atts) else (query, some (atts ++ reply_atts))
          | none => (query, some atts)
      | none => (query, none)
    else (query, attachments)

/-! ## message_handler.py: should_respond_to_message -/

/-- Function `should_respond_to_message` from `message_handler.py`. Note that both
`in_tracked_channel` and `in_tracked_thread` test membership in the
`TRACKED_CHANNELS` constant from `settings.py`; the persisted
tracked-thread list is not consulted. -/
def should_respond_to_message (message : Message) : Bool :=
  -- `if message.guild and message.guild.me and message.author == message.guild.me`
  if (match message.guild with
      | some g => message.author.id == g.me_id
      | none => false) then false
  else if message.mention_everyone then false
  else
    let bot_mentioned :=
      match message.guild with
      | some _ => message.bot_mentioned
      | none => false
    let is_dm := message.is_dm
    let in_tracked_channel := TRACKED_CHANNELS.contains message.channel_id
    let in_tracked_thread := TRACKED_CHANNELS.contains message.channel_id
    bot_mentioned || is_dm || in_tracked_channel || in_tracked_thread

/-- The response decision as claim C2 and §4.5 of the specification state
it, written from the spec's words for comparison with
`should_respond_to_message`: the bot responds iff the author is not the
bot, the message is not an `@everyone` broadcast, and one of
{mentioned, direct message, tracked channel, tracked thread} holds,
where the tracked-thread list is the one the thread-creation command
maintains. -/
def spec_should_respond (message : Message) (tracked_threads : List Nat) : Bool :=
  (!(match message.guild with
     | some g => message.author.id == g.me_id
     | none => false))
  && !message.mention_everyone
  && ((match message.guild with
       | some _ => message.bot_mentioned
       | none => false)
      || message.is_dm
      || TRACKED_CHANNELS.contains message.channel_id
      || tracked_threads.contains message.channel_id)

/-! ## commands.py: TrackedThreadsManager -/

/-- Class `TrackedThreadsManager` from `commands.py`: the in-memory list loaded
from and saved to the `tracked_threads` key of the shelve store. -/
structure TrackedThreadsManager where
  threads : List Nat

/-- Method `TrackedThreadsManager.add_thread`. -/
def TrackedThreadsManager.add_thread (m : TrackedThreadsManager) (thread_id : Nat) :
    TrackedThreadsManager :=
  if thread_id ∈ m.threads then m else ⟨m.threads ++ [thread_id]⟩

/-- Method `TrackedThreadsManager.remove_thread` (`list.remove` drops the first
occurrence). -/
def TrackedThreadsManager.remove_thread (m : TrackedThreadsManager) (thread_id : Nat) :
    TrackedThreadsManager :=
  if thread_id ∈ m.threads then ⟨m.threads.erase thread_id⟩ else m

/-! ## ai_service.py: history conversion -/

/-- The per-part conversion inside `_convert_history_to_new_format`:
a string becomes `{"text": s}`, a dict passes through, anything else is
`str`-ed and wrapped. -/
def formatPart : PyVal → PyVal
  | .vstr s => .vdict [("text", .vstr s)]
  | .vdict d => .vdict d
  | other => .vdict [("text", .vstr (pyStr other))]

/-- The per-item normalization inside `_convert_history_to_new_format`:
`none` when the item is skipped (not a dict, or the normalized dict is
empty). Insertion order of the normalized dict is `role` then `parts`,
as in the Python code. -/
def convertItem : PyVal → Option PyVal
  | .vdict entries =>
    let normRole :=
      match dictGet entries "role" with
      | some r => [("role", r)]
      | none => []
    let normParts :=
      match dictGet entries "parts" with
      | some p =>
        let parts :=
          match p with
          | .vlist l => l
          | other => [other]
        [("parts", PyVal.vlist (parts.map formatPart))]
      | none => []
    let normalized := normRole ++ normParts
    if normalized.isEmpty then none else some (.vdict normalized)
  | _ => none

/-- Method `AIService._convert_history_to_new_format`. -/
def convert_history_to_new_format (history : List PyVal) : List PyVal :=
  history.filterMap convertItem

/-! ## ai_service.py: AIService state and generate_response -/

/-- Constant `BOT_TEMPLATE` from `settings.py`: every entry is commented out, so the
shipped template is the empty list. -/
def BOT_TEMPLATE : List PyVal := []

/-- Update-or-insert for the channel-indexed dictionaries
(`self.conversation_history[channel_id] = ...`). -/
def insertEntry (m : List (Nat × List PyVal)) (k : Nat) (v : List PyVal) :
    List (Nat × List PyVal) :=
  match m with
  | [] => [(k, v)]
  | (k', v') :: rest => if k' = k then (k, v) :: rest else (k', v') :: insertEntry rest k v

/-- The mutable state of `AIService`: `message_history` is the set of
channel ids holding a live `Chat` session (the session handle itself
lives behind the API boundary), `conversation_history` the channel-indexed
turn log the service tracks alongside it. -/
structure AIState where
  message_history : List Nat
  conversation_history : List (Nat × List PyVal)

/-- Method `AIService.get_history`: `self.conversation_history.get(channel_id, [])`. -/
def AIState.get_history (st : AIState) (channel_id : Nat) : List PyVal :=
  match st.conversation_history.lookup channel_id with
  | some h => h
  | none => []

/-- Method `AIService.generate_response`. The external `chat.send_message` call is
the API boundary; its outcome is the `apiResult` argument: `.error e` when
the call raises, `.ok t` when it returns a response whose `.text` is `t`
(`none` for a missing text). Returns the value `generate_response` returns
(or the raised failure) together with the state after the call; the
`except` block only writes `errors.log` and re-raises, mutating neither
`message_history` nor `conversation_history`. -/
def generate_response (st : AIState) (channel_id : Nat) (attachments : List PyVal)
    (text : String) (apiResult : Except String (Option String)) :
    Except String String × AIState :=
  let prompt_parts : List PyVal := attachments ++ [PyVal.vstr text]
  -- `if channel_id not in self.message_history:` — lazy session creation
  let st1 :=
    if channel_id ∈ st.message_history then st
    else
      let converted_template := convert_history_to_new_format BOT_TEMPLATE
      { message_history := channel_id :: st.message_history,
        conversation_history := insertEntry st.conversation_history channel_id converted_template }
  match apiResult with
  | .error e => (.error e, st1)
  | .ok response_text =>
    -- `if channel_id in self.conversation_history:` — track the turn pair
    let st2 :=
      if (st1.conversation_history.lookup channel_id).isSome then
        let formatted_parts := prompt_parts.map fun part =>
          match part with
          | .vstr s => PyVal.vdict [("text", .vstr s)]
          | p => p
        let userTurn := PyVal.vdict [("role", .vstr "user"), ("parts", .vlist formatted_parts)]
        let modelTurns :=
          match response_text with
          | some t =>
            if t = "" then []
            else [PyVal.vdict [("role", .vstr "model"), ("parts", .vlist [.vdict [("text", .vstr t)]])]]
          | none => []
        let newLog := st1.get_history channel_id ++ [userTurn] ++ modelTurns
        { st1 with conversation_history := insertEntry st1.conversation_history channel_id newLog }
      else st1
    -- `return response.text if response and response.text else ""`
    (.ok (match response_text with | some t => t | none => ""), st2)

/-! ## Concrete scenario inputs -/

/-- A message sent in thread `5` by user `alice` (id 2): the thread was
created by the `createthread` command (so its id is in the tracked-thread
list), the guild's bot member has id 1, the bot is not mentioned, it is
not a direct message and `@everyone` is not mentioned. -/
def thread_message : Message :=
  { author := ⟨"alice", 2⟩, content := "hi", clean_content := "hi",
    attachments := [], reference := none, guild := some ⟨1⟩,
    mention_everyone := false, channel_id := 5, is_dm := false, bot_mentioned := false }

/-- The tracked-thread list after `createthread` registered thread `5`
(the manager starts from an empty store). -/
def tracked_after_createthread : TrackedThreadsManager :=
  (TrackedThreadsManager.mk []).add_thread 5

/-- A direct message (`guild` is `None`) from `alice` (id 2) replying to a
message whose author is `bob` (id 3), another human user — not the bot. -/
def dm_reply_message : Message :=
  { author := ⟨"alice", 2⟩, content := "hi", clean_content := "hi",
    attachments := [], reference := some ⟨⟨"bob", 3⟩, "yo", []⟩, guild := none,
    mention_everyone := false, channel_id := 42, is_dm := true, bot_mentioned := false }

/-- The attachment carried by the quoted message in
`guild_reply_message`: a PNG whose fetch succeeds with status 200. -/
def quoted_attachment : AttachmentRef := ⟨"b.png", .ok (200, [7])⟩

/-- A guild message from `alice` (id 2) replying to a message authored by
`bob` (id 3, not the bot member id 1) that carries one PNG attachment. -/
def guild_reply_message : Message :=
  { author := ⟨"alice", 2⟩, content := "hi", clean_content := "hi",
    attachments := [], reference := some ⟨⟨"bob", 3⟩, "yo", [quoted_attachment]⟩,
    guild := some ⟨1⟩, mention_everyone := false, channel_id := 42,
    is_dm := false, bot_mentioned := false }

/-! ## Supporting lemmas -/

/-- Enough fuel makes the amount of fuel irrelevant. -/
theorem split_chunks_go_congr (text : List Char) (ml : Nat) (hml : 1 ≤ ml) :
    ∀ f₁ : Nat, ∀ f₂ i : Nat, text.length - i ≤ f₁ → text.length - i ≤ f₂ →
      split_chunks_go f₁ text i ml = split_chunks_go f₂ text i ml := by
  intro f₁
  induction f₁ with
  | zero =>
    intro f₂ i h1 h2
    have hi : ¬ i < text.length := by omega
    cases f₂ with
    | zero => rfl
    | succ f₂ => simp [split_chunks_go, hi]
  | succ f₁ ih =>
    intro f₂ i h1 h2
    by_cases hi : i < text.length
    · cases f₂ with
      | zero => omega
      | succ f₂ =>
        simp only [split_chunks_go, hi, if_true]
        rw [ih f₂ (i + ml) (by omega) (by omega)]
    · cases f₂ with
      | zero => simp [split_chunks_go, hi]
      | succ f₂ => simp [split_chunks_go, hi]

/-- Applying `split_chunks` to the empty text is the empty chunk list
(`range(0, 0, ml)` is empty). -/
theorem split_chunks_nil (ml : Nat) : split_chunks [] ml = [] := by
  unfold split_chunks
  by_cases h : ml = 0 <;> simp [h, split_chunks_go]

/-- Unfolding: on non-empty text and positive `max_length`, the first chunk
is `take max_length` and the rest chunks the dropped remainder. -/
theorem split_chunks_cons (text : List Char) (ml : Nat) (hml : ml ≠ 0) (hne : text ≠ []) :
    split_chunks text ml = text.take ml :: split_chunks (text.drop ml) ml := by
  have hml1 : 1 ≤ ml := by omega
  have hlen : 0 < text.length := List.length_pos.mpr hne
  have hshift : ∀ fuel i, split_chunks_go fuel text (i + ml) ml
      = split_chunks_go fuel (text.drop ml) i ml := by
    intro fuel
    induction fuel with
    | zero => intro i; rfl
    | succ fuel ih =>
      intro i
      have hcond : (i + ml < text.length) ↔ (i < (text.drop ml).length) := by
        simp only [List.length_drop]; omega
      by_cases hi : i + ml < text.length
      · simp only [split_chunks_go, if_pos hi, if_pos (hcond.mp hi)]
        congr 1
        · rw [List.drop_drop, Nat.add_comm i ml]
        · exact ih (i + ml)
      · simp only [split_chunks_go, if_neg hi, if_neg ((not_congr hcond).mp hi)]
  unfold split_chunks
  simp only [hml, if_false]
  obtain ⟨L, hL⟩ : ∃ L, text.length = L + 1 := ⟨text.length - 1, by omega⟩
  rw [hL]
  show (if 0 < text.length then ((text.drop 0).take ml) :: split_chunks_go L text (0 + ml) ml else [])
      = text.take ml :: split_chunks_go (text.drop ml).length (text.drop ml) 0 ml
  rw [if_pos hlen]
  simp only [List.drop_zero]
  congr 1
  rw [hshift L 0]
  exact split_chunks_go_congr (text.drop ml) ml hml1 L (text.drop ml).length 0
    (by simp only [List.length_drop]; omega) (by omega)

/-- Concatenating the chunks in order restores the text. -/
theorem split_chunks_flatten (ml : Nat) (hml : 0 < ml) (text : List Char) :
    (split_chunks text ml).flatten = text := by
  by_cases hne : text = []
  · subst hne
    rw [split_chunks_nil, List.flatten_nil]
  · rw [split_chunks_cons text ml (by omega) hne, List.flatten_cons,
      split_chunks_flatten ml hml (text.drop ml), List.take_append_drop]
termination_by text.length
decreasing_by
  simp only [List.length_drop]
  have := List.length_pos.mpr hne
  omega

/-- Every chunk has at most `max_length` characters and is non-empty. -/
theorem split_chunks_chunk_spec (ml : Nat) (hml : 0 < ml) (text : List Char) :
    ∀ c ∈ split_chunks text ml, c.length ≤ ml ∧ c ≠ [] := by
  intro c hc
  by_cases hne : text = []
  · subst hne
    rw [split_chunks_nil] at hc
    exact absurd hc (List.not_mem_nil c)
  · rw [split_chunks_cons text ml (by omega) hne, List.mem_cons] at hc
    rcases hc with hc | hc
    · subst hc
      constructor
      · rw [List.length_take]
        omega
      · rw [← List.length_pos, List.length_take]
        have := List.length_pos.mpr hne
        omega
    · exact split_chunks_chunk_spec ml hml (text.drop ml) c hc
termination_by text.length
decreasing_by
  simp only [List.length_drop]
  have := List.length_pos.mpr hne
  omega

/-- A text of length 5000 chunked at 1700 gives chunk lengths
1700, 1700, 1600. -/
theorem split_chunks_5000 (text : List Char) (h : text.length = 5000) :
    (split_chunks text 1700).map List.length = [1700, 1700, 1600] := by
  have h1 : text ≠ [] := by
    rw [← List.length_pos]; omega
  have h2 : text.drop 1700 ≠ [] := by
    rw [← List.length_pos, List.length_drop]; omega
  have h3 : (text.drop 1700).drop 1700 ≠ [] := by
    rw [← List.length_pos, List.length_drop, List.length_drop]; omega
  have h4 : ((text.drop 1700).drop 1700).drop 1700 = [] := by
    rw [← List.length_eq_zero, List.length_drop, List.length_drop, List.length_drop]; omega
  rw [split_chunks_cons text 1700 (by omega) h1,
    split_chunks_cons _ 1700 (by omega) h2,
    split_chunks_cons _ 1700 (by omega) h3,
    h4, split_chunks_nil]
  simp only [List.map_cons, List.map_nil, List.length_take, List.length_drop, h]
  decide

/-- Lemma: `insertEntry` overwrites or creates exactly the requested key. -/
theorem lookup_insertEntry_self (m : List (Nat × List PyVal)) (k : Nat) (v : List PyVal) :
    (insertEntry m k v).lookup k = some v := by
  induction m with
  | nil => simp [insertEntry, List.lookup]
  | cons e rest ih =>
    obtain ⟨k', v'⟩ := e
    unfold insertEntry
    by_cases hk : k' = k
    · simp [hk, List.lookup]
    · simp only [hk, if_false, List.lookup]
      have : (k == k') = false := by
        simp [Ne.symm hk]
      simp [this, ih]

/-- Equation for `get_mime_type` with its `let` zeta-reduced, for rewriting. -/
theorem get_mime_type_eq (f : String) :
    get_mime_type f =
      if extOf f ∈ MIME_image then some ("image/" ++ (extOf f).drop 1)
      else if extOf f ∈ MIME_audio then some ("audio/" ++ (extOf f).drop 1)
      else if extOf f ∈ MIME_text then some ("text/" ++ (extOf f).drop 1)
      else
        match MIME_application.lookup (extOf f) with
        | some m => some m
        | none => none := rfl

/-! ## Claim theorems -/

/-- C3: for every string and every `max_length > 0`, the chunks built by
`split_and_send_messages` concatenate in order back to the input exactly,
each chunk has length at most `max_length`, and a 5000-character text at
`max_length` 1700 gives exactly three chunks of lengths 1700, 1700, 1600. -/
theorem claim_C3_chunking :
    (∀ (text : List Char) (ml : Nat), 0 < ml →
      (split_chunks text ml).flatten = text ∧ ∀ c ∈ split_chunks text ml, c.length ≤ ml)
    ∧ (∀ text : List Char, text.length = 5000 →
      (split_chunks text 1700).map List.length = [1700, 1700, 1600]) := by
  constructor
  · intro text ml hml
    exact ⟨split_chunks_flatten ml hml text,
      fun c hc => (split_chunks_chunk_spec ml hml text c hc).1⟩
  · exact split_chunks_5000

/-- Witness for C3 at concrete inputs. -/
theorem claim_C3_chunking_witness :
    (split_chunks "abcde".data 2).flatten = "abcde".data
    ∧ (split_chunks (List.replicate 5000 'A') 1700).map List.length = [1700, 1700, 1600] :=
  ⟨(claim_C3_chunking.1 "abcde".data 2 (by decide)).1,
   claim_C3_chunking.2 (List.replicate 5000 'A') (List.length_replicate 5000 'A')⟩

/-- C4 as stated is false on the code: for the empty text the slicing loop
body never runs (`range(0, 0, max_length)` is empty), so the result is no
chunks at all — not a single empty chunk — and no reply is sent. -/
theorem claim_C4_counterexample :
    split_chunks [] 1700 = [] ∧ split_chunks [] 1700 ≠ [[]] := by
  exact ⟨split_chunks_nil 1700, by decide⟩

/-- C4 amended: for every `max_length > 0` no produced chunk is ever empty,
and for the empty input text the result is the empty chunk list, so no
reply at all is sent. -/
theorem claim_C4_amended :
    (∀ (text : List Char) (ml : Nat), 0 < ml → ∀ c ∈ split_chunks text ml, c ≠ [])
    ∧ ∀ ml : Nat, split_chunks [] ml = [] := by
  constructor
  · intro text ml hml c hc
    exact (split_chunks_chunk_spec ml hml text c hc).2
  · exact split_chunks_nil

/-- Witness for the amended C4 at concrete inputs. -/
theorem claim_C4_amended_witness :
    "ab".data ≠ ([] : List Char) ∧ split_chunks [] 3 = [] :=
  ⟨claim_C4_amended.1 "ab".data 2 (by decide) "ab".data (by decide),
   claim_C4_amended.2 3⟩

/-- C7: `_get_mime_type` is a pure, extension-based, case-insensitive
classification: filenames agreeing after lowering classify identically,
extensions on the image/audio/text allow-lists map to the category MIME
type, extensions keyed in the application table map to its value, anything
else yields `none`; `photo.PNG` is an image type, `script.exe` is `none`. -/
theorem claim_C7_classify :
    (∀ f g : String, pyLower f = pyLower g → get_mime_type f = get_mime_type g)
    ∧ (∀ f : String,
        (extOf f ∈ MIME_image → get_mime_type f = some ("image/" ++ (extOf f).drop 1))
        ∧ (extOf f ∈ MIME_audio → get_mime_type f = some ("audio/" ++ (extOf f).drop 1))
        ∧ (extOf f ∈ MIME_text → get_mime_type f = some ("text/" ++ (extOf f).drop 1))
        ∧ (∀ k m : String, (k, m) ∈ MIME_application → extOf f = k → get_mime_type f = some m)
        ∧ (extOf f ∉ MIME_image → extOf f ∉ MIME_audio → extOf f ∉ MIME_text →
            MIME_application.lookup (extOf f) = none → get_mime_type f = none))
    ∧ get_mime_type "photo.PNG" = some "image/png"
    ∧ get_mime_type "script.exe" = none := by
  refine ⟨?_, ?_, by decide, by decide⟩
  · intro f g h
    have he : extOf f = extOf g := by
      unfold extOf
      rw [h]
    rw [get_mime_type_eq f, get_mime_type_eq g, he]
  · intro f
    refine ⟨?_, ?_, ?_, ?_, ?_⟩
    · intro h
      simp only [MIME_image, List.mem_cons, List.not_mem_nil, or_false] at h
      rcases h with h | h | h | h | h | h <;> (rw [get_mime_type_eq f, h]; decide)
    · intro h
      simp only [MIME_audio, List.mem_cons, List.not_mem_nil, or_false] at h
      rcases h with h | h | h | h | h | h <;> (rw [get_mime_type_eq f, h]; decide)
    · intro h
      simp only [MIME_text, List.mem_cons, List.not_mem_nil, or_false] at h
      rcases h with h | h | h | h | h | h <;> (rw [get_mime_type_eq f, h]; decide)
    · intro k m hk he
      simp only [MIME_application, List.mem_cons, List.not_mem_nil, or_false,
        Prod.mk.injEq] at hk
      rcases hk with ⟨hk1, hk2⟩ | ⟨hk1, hk2⟩ | ⟨hk1, hk2⟩ <;>
        (subst hk1; subst hk2; rw [get_mime_type_eq f, he]; decide)
    · intro h1 h2 h3 h4
      rw [get_mime_type_eq f, if_neg h1, if_neg h2, if_neg h3, h4]

/-- Witness for C7: each guarded branch applied at a concrete filename. -/
theorem claim_C7_classify_witness :
    get_mime_type "A.WAV" = get_mime_type "a.wav"
    ∧ get_mime_type "pic.JPEG" = some "image/jpeg"
    ∧ get_mime_type "x.OGG" = some "audio/ogg"
    ∧ get_mime_type "page.HTML" = some "text/html"
    ∧ get_mime_type "b.PDF" = some "application/pdf"
    ∧ get_mime_type "z.xyz" = none :=
  ⟨claim_C7_classify.1 "A.WAV" "a.wav" (by decide),
   (claim_C7_classify.2.1 "pic.JPEG").1 (by decide),
   (claim_C7_classify.2.1 "x.OGG").2.1 (by decide),
   (claim_C7_classify.2.1 "page.HTML").2.2.1 (by decide),
   (claim_C7_classify.2.1 "b.PDF").2.2.2.1 ".pdf" "application/pdf" (by decide) (by decide),
   (claim_C7_classify.2.1 "z.xyz").2.2.2.2 (by decide) (by decide) (by decide) (by decide)⟩

/-- C10: the classification depends only on the substring after the last
`.` of the lowercased filename, so a dot-free filename is itself treated as
the extension: `png` classifies as `image/png` and `mp3` as `audio/mp3`. -/
theorem claim_C10_no_dot_extension :
    (∀ f g : String,
      (pySplit (pyLower f) '.').getLastD "" = (pySplit (pyLower g) '.').getLastD "" →
      get_mime_type f = get_mime_type g)
    ∧ get_mime_type "png" = some "image/png"
    ∧ get_mime_type "mp3" = some "audio/mp3" := by
  refine ⟨?_, by decide, by decide⟩
  intro f g h
  have he : extOf f = extOf g := by
    unfold extOf
    rw [h]
  rw [get_mime_type_eq f, get_mime_type_eq g, he]

/-- Witness for C10: the dotted filename `shot.TAR.PNG` and the dot-free
filename `png` have the same last component, hence classify identically. -/
theorem claim_C10_no_dot_extension_witness :
    (pySplit (pyLower "shot.TAR.PNG") '.').getLastD ""
      = (pySplit (pyLower "png") '.').getLastD ""
    ∧ get_mime_type "shot.TAR.PNG" = get_mime_type "png" :=
  ⟨by decide, claim_C10_no_dot_extension.1 "shot.TAR.PNG" "png" (by decide)⟩

/-- C6: `get_attachment_data` fails as a whole — returning `None` and
discarding earlier items' bytes — whenever any reference's fetch yields a
non-success transport status; a reference whose classification is `none`
is silently skipped; and a batch of all-successfully-fetched but
all-unsupported references returns the empty list. -/
theorem claim_C6_batch_failfast :
    (∀ atts : List AttachmentRef,
      (∃ a ∈ atts, ∃ s bytes, a.fetch = .ok (s, bytes) ∧ s ≠ 200) →
      get_attachment_data atts = none)
    ∧ (∀ (a : AttachmentRef) (rest : List AttachmentRef) (bytes : List Nat),
        a.fetch = .ok (200, bytes) → get_mime_type a.filename = none →
        get_attachment_data (a :: rest) = get_attachment_data rest)
    ∧ (∀ atts : List AttachmentRef,
        (∀ a ∈ atts, ∃ bytes, a.fetch = .ok (200, bytes)) →
        (∀ a ∈ atts, get_mime_type a.filename = none) →
        get_attachment_data atts = some []) := by
  refine ⟨?_, ?_, ?_⟩
  · intro atts
    induction atts with
    | nil =>
      rintro ⟨a, ha, -⟩
      exact absurd ha (List.not_mem_nil a)
    | cons hd rest ih =>
      rintro ⟨a, ha, s, bytes, hfetch, hs⟩
      cases hf : hd.fetch with
      | error e => simp [get_attachment_data, hf]
      | ok p =>
        obtain ⟨st, bs⟩ := p
        by_cases hst : st = 200
        · subst hst
          have hrest : get_attachment_data rest = none := by
            rcases List.mem_cons.mp ha with rfl | ha'
            · rw [hf] at hfetch
              injection hfetch with hp
              injection hp with h1 h2
              exact absurd h1.symm hs
            · exact ih ⟨a, ha', s, bytes, hfetch, hs⟩
          cases hm : get_mime_type hd.filename <;>
            simp [get_attachment_data, hf, hm, hrest]
        · simp [get_attachment_data, hf, hst]
  · intro a rest bytes hf hm
    simp [get_attachment_data, hf, hm]
  · intro atts
    induction atts with
    | nil => intro _ _; rfl
    | cons hd rest ih =>
      intro h200 hmime
      obtain ⟨bytes, hf⟩ := h200 hd (List.mem_cons_self hd rest)
      have hm := hmime hd (List.mem_cons_self hd rest)
      have := ih (fun a ha => h200 a (List.mem_cons_of_mem hd ha))
        (fun a ha => hmime a (List.mem_cons_of_mem hd ha))
      simp [get_attachment_data, hf, hm, this]

/-- Witness for C6: a batch whose second fetch returns 404 fails whole; a
batch of two unsupported-but-fetchable files returns the empty list. -/
theorem claim_C6_batch_failfast_witness :
    get_attachment_data [⟨"a.png", .ok (200, [1, 2])⟩, ⟨"b.png", .ok (404, [3])⟩] = none
    ∧ get_attachment_data [⟨"a.exe", .ok (200, [1])⟩, ⟨"b.zip", .ok (200, [3])⟩] = some [] :=
  ⟨claim_C6_batch_failfast.1 _
      ⟨⟨"b.png", .ok (404, [3])⟩, by decide, 404, [3], rfl, by decide⟩,
   claim_C6_batch_failfast.2.2 _
      (by
        intro a ha
        rcases List.mem_cons.mp ha with rfl | ha'
        · exact ⟨[1], rfl⟩
        · rcases List.mem_cons.mp ha' with rfl | h
          · exact ⟨[3], rfl⟩
          · exact absurd h (List.not_mem_nil a))
      (by decide)⟩

/-- C8: for every author name, message text and attachment list, the base
clause of `construct_query` is `@<author> said "<text>"` without
attachments, `@<author> sent attachments:` with attachments and empty
text, and `@<author> said "<text>" while sending attachments:` with
attachments and non-empty text. -/
theorem claim_C8_base_clause :
    ∀ (author text : String) (aid : Nat) (la : List AttachmentRef) (g : Option Guild)
      (ev dm bm : Bool) (ch : Nat) (atts : Option (List AttachmentData)),
      (la = [] →
        (construct_query ⟨⟨author, aid⟩, text, text, la, none, g, ev, ch, dm, bm⟩ atts).1
          = "@" ++ author ++ " said \"" ++ text ++ "\"")
      ∧ (la ≠ [] → text = "" →
        (construct_query ⟨⟨author, aid⟩, text, text, la, none, g, ev, ch, dm, bm⟩ atts).1
          = "@" ++ author ++ " sent attachments:")
      ∧ (la ≠ [] → text ≠ "" →
        (construct_query ⟨⟨author, aid⟩, text, text, la, none, g, ev, ch, dm, bm⟩ atts).1
          = "@" ++ author ++ " said \"" ++ text ++ "\" while sending attachments:") := by
  intro author text aid la g ev dm bm ch atts
  refine ⟨?_, ?_, ?_⟩
  · intro hla
    subst hla
    simp [construct_query]
  · intro hla htext
    subst htext
    have hb : la.isEmpty = false := by
      cases hb : la.isEmpty
      · rfl
      · exact absurd (List.isEmpty_iff.mp hb) hla
    have h0 : ("" : String).isEmpty = true := rfl
    simp [construct_query, hb, h0]
  · intro hla htext
    have hb : la.isEmpty = false := by
      cases hb : la.isEmpty
      · rfl
      · exact absurd (List.isEmpty_iff.mp hb) hla
    have ht : text.isEmpty = false := by
      cases ht : text.isEmpty
      · rfl
      · exact absurd ((String.isEmpty_iff _).mp ht) htext
    simp [construct_query, hb, ht]

/-- Witness for C8: the three base clauses at concrete inputs, including
the specification scenario `build_query("alice", "hello", no attachments)`. -/
theorem claim_C8_base_clause_witness :
    (construct_query ⟨⟨"alice", 2⟩, "hello", "hello", [], none, some ⟨1⟩, false, 42, false, false⟩
        (some [])).1 = "@alice said \"hello\""
    ∧ (construct_query ⟨⟨"alice", 2⟩, "", "", [⟨"a.png", .ok (200, [1])⟩], none, some ⟨1⟩,
        false, 42, false, false⟩ (some [])).1 = "@alice sent attachments:"
    ∧ (construct_query ⟨⟨"alice", 2⟩, "hi", "hi", [⟨"a.png", .ok (200, [1])⟩], none, some ⟨1⟩,
        false, 42, false, false⟩ (some [])).1
      = "@alice said \"hi\" while sending attachments:" :=
  ⟨(claim_C8_base_clause "alice" "hello" 2 [] (some ⟨1⟩) false false false 42 (some [])).1 rfl,
   (claim_C8_base_clause "alice" "" 2 [⟨"a.png", .ok (200, [1])⟩] (some ⟨1⟩) false false false 42
      (some [])).2.1 (by decide) rfl,
   (claim_C8_base_clause "alice" "hi" 2 [⟨"a.png", .ok (200, [1])⟩] (some ⟨1⟩) false false false 42
      (some [])).2.2 (by decide) (by decide)⟩

/-- C9 as stated is false on the code: in a direct message (`guild` is
`None`) the quoting condition `... if message.guild else False` is `False`,
so even a reply to another user's message gets no quoting clause. In
`dm_reply_message`, `alice` replies to `bob`'s message (a human user, not
the bot), yet the query is the bare base clause. -/
theorem claim_C9_counterexample :
    (construct_query dm_reply_message (some [])).1 = "@alice said \"hi\""
    ∧ (construct_query dm_reply_message (some [])).1
        ≠ "@alice said \"hi\" while quoting @bob \"yo\"" := by
  exact ⟨rfl, by decide⟩

/-- C9 amended: the quoting clause ` while quoting @<author> "<text>"` is
appended exactly when the message is in a guild and the quoted author's id
differs from the bot member's id — in direct messages it is never appended
— and when it is appended, a successful, non-empty fetch of the quoted
message's attachments appends them to the outgoing attachment list. -/
theorem claim_C9_guild_quoting :
    ∀ (msg : Message) (reply : RefMessage) (atts : List AttachmentData),
      msg.reference = some reply →
      (msg.guild = none →
        construct_query msg (some atts)
          = ((construct_query { msg with reference := none } (some atts)).1, some atts))
      ∧ (∀ g : Guild, msg.guild = some g → reply.author.id = g.me_id →
        construct_query msg (some atts)
          = ((construct_query { msg with reference := none } (some atts)).1, some atts))
      ∧ (∀ g : Guild, msg.guild = some g → reply.author.id ≠ g.me_id →
        (construct_query msg (some atts)).1
          = (construct_query { msg with reference := none } (some atts)).1
            ++ " while quoting @" ++ reply.author.name ++ " \"" ++ reply.clean_content ++ "\"")
      ∧ (∀ g : Guild, msg.guild = some g → reply.author.id ≠ g.me_id →
        ∀ ras : List AttachmentData, reply.attachments ≠ [] →
          get_attachment_data reply.attachments = some ras → ras ≠ [] →
          (construct_query msg (some atts)).2 = some (atts ++ ras)) := by
  intro msg reply atts href
  obtain ⟨auth, content, clean, attachments, ref, guild, ev, ch, dm, bm⟩ := msg
  refine ⟨?_, ?_, ?_, ?_⟩
  · intro hg
    subst hg
    subst href
    simp [construct_query]
  · intro g hg hid
    subst hg
    subst href
    have : (reply.author.id != g.me_id) = false := by
      simp [hid]
    simp [construct_query, this]
  · intro g hg hid
    subst hg
    subst href
    have hb : (reply.author.id != g.me_id) = true := by
      simp [hid]
    simp only [construct_query, hb, if_true]
    cases hre : reply.attachments.isEmpty
    · cases hga : get_attachment_data reply.attachments with
      | none => simp [hre, hga]
      | some ras => cases hrase : ras.isEmpty <;> simp [hre, hga, hrase]
    · simp [hre]
  · intro g hg hid ras hne hga hrasne
    subst hg
    subst href
    have hb : (reply.author.id != g.me_id) = true := by
      simp [hid]
    have hre : reply.attachments.isEmpty = false := by
      cases hb2 : reply.attachments.isEmpty
      · rfl
      · exact absurd (List.isEmpty_iff.mp hb2) hne
    have hrase : ras.isEmpty = false := by
      cases hb2 : ras.isEmpty
      · rfl
      · exact absurd (List.isEmpty_iff.mp hb2) hrasne
    simp [construct_query, hb, hre, hga, hrase]

/-- Witness for the amended C9: in `guild_reply_message` the quoting clause
is appended and the quoted message's fetched attachment is appended to the
outgoing list. -/
theorem claim_C9_guild_quoting_witness :
    (construct_query guild_reply_message (some [])).1
      = (construct_query { guild_reply_message with reference := none } (some [])).1
        ++ " while quoting @" ++ "bob" ++ " \"" ++ "yo" ++ "\""
    ∧ (construct_query guild_reply_message (some [])).2
      = some ([] ++ [⟨"image/png", [7]⟩]) :=
  ⟨(claim_C9_guild_quoting guild_reply_message ⟨⟨"bob", 3⟩, "yo", [quoted_attachment]⟩ [] rfl).2.2.1
      ⟨1⟩ rfl (by decide),
   (claim_C9_guild_quoting guild_reply_message ⟨⟨"bob", 3⟩, "yo", [quoted_attachment]⟩ [] rfl).2.2.2
      ⟨1⟩ rfl (by decide) [⟨"image/png", [7]⟩] (by decide) (by decide) (by decide)⟩

/-- C5 as stated is false on the code: a turn carrying only a `role` (no
`parts` key) is not dropped — `normalized` is non-empty, so the turn is
kept with just its role. -/
theorem claim_C5_counterexample :
    convert_history_to_new_format [.vdict [("role", .vstr "user")]]
      = [.vdict [("role", .vstr "user")]]
    ∧ (convert_history_to_new_format [.vdict [("role", .vstr "user")]]).length ≠ 0 := by
  exact ⟨rfl, by decide⟩

/-- C5 amended: normalization wraps plain-string parts as `{text: value}`,
passes structured dict parts through unchanged, stringifies-then-wraps
other scalar parts, and drops from the output exactly the turns that are
missing both the `role` field and the `parts` field (and non-dict items);
a turn with only one of the two fields is kept with that field alone. -/
theorem claim_C5_normalization :
    (∀ s : String, formatPart (.vstr s) = .vdict [("text", .vstr s)])
    ∧ (∀ d : List (String × PyVal), formatPart (.vdict d) = .vdict d)
    ∧ (∀ n : Int, formatPart (.vint n) = .vdict [("text", .vstr (toString n))])
    ∧ formatPart .vnone = .vdict [("text", .vstr "None")]
    ∧ (∀ entries, dictGet entries "role" = none → dictGet entries "parts" = none →
        convertItem (.vdict entries) = none)
    ∧ (∀ entries r, dictGet entries "role" = some r → dictGet entries "parts" = none →
        convertItem (.vdict entries) = some (.vdict [("role", r)]))
    ∧ (∀ entries p, dictGet entries "role" = none → dictGet entries "parts" = some p →
        convertItem (.vdict entries)
          = some (.vdict [("parts", .vlist ((match p with
              | PyVal.vlist l => l
              | other => [other]).map formatPart))]))
    ∧ (∀ entries r p, dictGet entries "role" = some r → dictGet entries "parts" = some p →
        convertItem (.vdict entries)
          = some (.vdict [("role", r), ("parts", .vlist ((match p with
              | PyVal.vlist l => l
              | other => [other]).map formatPart))]))
    ∧ (∀ history, convert_history_to_new_format history = history.filterMap convertItem) := by
  refine ⟨fun s => rfl, fun d => rfl, fun n => rfl, rfl, ?_, ?_, ?_, ?_, fun history => rfl⟩
  · intro entries h1 h2
    simp [convertItem, h1, h2]
  · intro entries r h1 h2
    simp [convertItem, h1, h2]
  · intro entries p h1 h2
    simp [convertItem, h1, h2]
  · intro entries r p h1 h2
    simp [convertItem, h1, h2]

/-- Witness for the amended C5: a turn with neither field is dropped, a
role-only turn is kept, a parts-only turn is kept with its parts wrapped. -/
theorem claim_C5_normalization_witness :
    convertItem (.vdict [("x", .vint 1)]) = none
    ∧ convertItem (.vdict [("role", .vstr "user")]) = some (.vdict [("role", .vstr "user")])
    ∧ convertItem (.vdict [("parts", .vstr "hi")])
      = some (.vdict [("parts", .vlist [.vdict [("text", .vstr "hi")]])]) :=
  ⟨claim_C5_normalization.2.2.2.2.1 [("x", .vint 1)] rfl rfl,
   claim_C5_normalization.2.2.2.2.2.1 [("role", .vstr "user")] (.vstr "user") rfl rfl,
   claim_C5_normalization.2.2.2.2.2.2.1 [("parts", .vstr "hi")] (.vstr "hi") rfl rfl⟩

/-- C2: the code's decision disagrees with the specified one on messages in
threads registered by the `createthread` command. `thread_message` sits in
thread 5, which `tracked_after_createthread` tracks, its author is not the
bot, it mentions neither the bot nor `@everyone` and is not a DM: the
specified decision is to respond, but `should_respond_to_message` tests
`TRACKED_CHANNELS` twice and never reads the tracked-thread list, so it
refuses. -/
theorem claim_C2_tracked_thread_divergence :
    should_respond_to_message thread_message = false
    ∧ spec_should_respond thread_message tracked_after_createthread.threads = true := by
  exact ⟨rfl, rfl⟩

/-- C1: when the external API call raises, `generate_response` re-raises
the failure and the log observable through `get_history` for that channel
is unchanged — no user turn without a model reply is committed — including
for a channel with no session yet: there the lazily created session is
seeded with the normalized shipped `BOT_TEMPLATE`, which is empty, so
`get_history` still returns `[]` as before. The hypothesis is the service
invariant (maintained by `load_history`, `generate_response`,
`reset_channel_history` and `delete_channel_history`) that every channel
tracked in `conversation_history` also has a session in `message_history`. -/
theorem claim_C1_failed_generation_preserves_log
    (st : AIState) (channel_id : Nat) (attachments : List PyVal) (text : String) (e : String)
    (hwf : (st.conversation_history.lookup channel_id).isSome →
      channel_id ∈ st.message_history) :
    (generate_response st channel_id attachments text (.error e)).2.get_history channel_id
      = st.get_history channel_id
    ∧ (generate_response st channel_id attachments text (.error e)).1
      = .error e := by
  by_cases hmem : channel_id ∈ st.message_history
  · constructor
    · show AIState.get_history (if channel_id ∈ st.message_history then st else _) channel_id
        = st.get_history channel_id
      rw [if_pos hmem]
    · rfl
  · have hlook : st.conversation_history.lookup channel_id = none := by
      cases h : st.conversation_history.lookup channel_id
      · rfl
      · exact absurd (hwf (by rw [h]; rfl)) hmem
    constructor
    · show AIState.get_history
        (if channel_id ∈ st.message_history then st
         else ⟨channel_id :: st.message_history,
           insertEntry st.conversation_history channel_id
             (convert_history_to_new_format BOT_TEMPLATE)⟩) channel_id
        = st.get_history channel_id
      rw [if_neg hmem]
      unfold AIState.get_history
      rw [lookup_insertEntry_self, hlook]
      rfl
    · rfl

/-- Witness for C1: a failed call on a fresh service leaves channel 42's
log empty, as it was before. -/
theorem claim_C1_failed_generation_preserves_log_witness :
    (generate_response ⟨[], []⟩ 42 [] "hello" (.error "boom")).2.get_history 42
      = AIState.get_history ⟨[], []⟩ 42
    ∧ (generate_response ⟨[], []⟩ 42 [] "hello" (.error "boom")).1 = .error "boom" :=
  claim_C1_failed_generation_preserves_log ⟨[], []⟩ 42 [] "hello" "boom" (by decide)

end DiscordGeminiBot
